import Mathlib

/-!
Shallow embedding of the San Diego public-safety pipeline
(`src/pipeline/ingest.py`, `src/pipeline/transform.py`,
`src/pipeline/validate.py`) and proofs about it.

Modelling conventions:
* DuckDB `TIMESTAMP` values are points on a linear time axis; we model them
  as `Int` (seconds since the Unix epoch, which matches DuckDB's int64
  epoch-offset representation up to scale).  A `TRY_CAST(col AS TIMESTAMP)`
  of a raw text column is modelled by giving the raw record an
  `Option Int` field holding the parse result (`none` = unparseable/NULL).
* SQL `NULL` is `Option.none`; three-valued logic is translated at each use
  site (a comparison with `NULL` contributes `false` to a `WHERE` clause).
* `DATE_TRUNC('month', d)` is modelled by the month index `year * 12 + (month - 1)`,
  which is equal for two dates exactly when their truncations are equal and
  is ordered the same way.
* Parquet files are lists of records; the `ORDER BY` clauses of exported
  queries only permute rows and are omitted (no claim is order-sensitive).
-/

namespace SDPS

/-! ## Characters and DuckDB string functions -/

/-- Case-folded character list of a string, used for `ILIKE` matching. -/
def lowerChars (s : String) : List Char :=
  s.data.map Char.toLower

/-- Is `p` a prefix of `s` (exact character match)? -/
def prefAt : List Char → List Char → Bool
  | [], _ => true
  | _ :: _, [] => false
  | a :: p, b :: s => a == b && prefAt p s

/-- Does `p` occur as a contiguous substring of `s`? -/
def hasSub (p : List Char) : List Char → Bool
  | [] => prefAt p []
  | b :: s => prefAt p (b :: s) || hasSub p s

/-- DuckDB `x ILIKE 'pat'` with no wildcard: case-insensitive whole-string match. -/
def ilikeExact (s pat : String) : Bool :=
  lowerChars s == lowerChars pat

/-- DuckDB `x ILIKE '%pat%'`: case-insensitive substring containment. -/
def ilikeContains (s pat : String) : Bool :=
  hasSub (lowerChars pat) (lowerChars s)

/-- DuckDB `REPLACE(s, ' ', '')`: delete every space character. -/
def replaceSpace (s : String) : String :=
  ⟨s.data.filter (fun c => c ≠ ' ')⟩

/-- DuckDB `UPPER(s)` (ASCII case mapping suffices for this data). -/
def upperStr (s : String) : String :=
  ⟨s.data.map Char.toUpper⟩

/-- The `_AGENCY_CASE` expression of `src/pipeline/transform.py` (repeated
verbatim for `arrest_agency` in `_transform_arrests`): an ordered
`CASE WHEN ... ILIKE ...` table, first match wins, with default
`UPPER(REPLACE(agency, ' ', ''))`. -/
def agencyShort (agency : String) : String :=
  if ilikeExact agency "SAN DIEGO" then "SDPD"
  else if ilikeContains agency "SHERIFF" || ilikeContains agency "SD COUNTY" then "SDSO"
  else if ilikeExact agency "CHULA VISTA" then "CVPD"
  else if ilikeExact agency "OCEANSIDE" then "OPD"
  else if ilikeExact agency "ESCONDIDO" then "EPD"
  else if ilikeExact agency "CARLSBAD" then "CPD"
  else if ilikeExact agency "EL CAJON" then "ECPD"
  else if ilikeExact agency "NATIONAL CITY" then "NCPD"
  else if ilikeExact agency "LA MESA" then "LMPD"
  else if ilikeExact agency "CORONADO" then "CoronPD"
  else if ilikeExact agency "VISTA" then "VPD"
  else upperStr (replaceSpace agency)

/-! ## Calendar functions (DuckDB `YEAR`, `MONTH`, `QUARTER`, `DAYOFWEEK`,
`DATE_TRUNC`, `HOUR`) -/

/-- Civil date (year, month, day) of a day number counted from 1970-01-01,
by the standard days-to-civil algorithm for the proleptic Gregorian calendar. -/
def civilOfDays (z : Int) : Int × Int × Int :=
  let days := z + 719468
  let era := days.fdiv 146097
  let doe := days - era * 146097
  let yoe := (doe - doe.fdiv 1460 + doe.fdiv 36524 - doe.fdiv 146096).fdiv 365
  let y := yoe + era * 400
  let doy := doe - (365 * yoe + yoe.fdiv 4 - yoe.fdiv 100)
  let mp := (5 * doy + 2).fdiv 153
  let d := doy - (153 * mp + 2).fdiv 5 + 1
  let m := mp + (if mp < 10 then 3 else -9)
  (y + (if m ≤ 2 then 1 else 0), m, d)

/-- `CAST(ts AS DATE)`: day number of a timestamp. -/
def dateOfTs (t : Int) : Int := t.fdiv 86400

/-- `YEAR(d)` for a day number. -/
def yearOfDay (d : Int) : Int := (civilOfDays d).1

/-- `MONTH(d)` for a day number. -/
def monthOfDay (d : Int) : Int := (civilOfDays d).2.1

/-- `QUARTER(d)` for a day number. -/
def quarterOfDay (d : Int) : Int := ((civilOfDays d).2.1 + 2).fdiv 3

/-- `DAYOFWEEK(d)`: 0 = Sunday .. 6 = Saturday; 1970-01-01 was a Thursday. -/
def dowOfDay (d : Int) : Int := (d + 4).emod 7

/-- `DATE_TRUNC('month', d)` modelled as the month index `y * 12 + (m - 1)`. -/
def monthStartOfDay (d : Int) : Int :=
  (civilOfDays d).1 * 12 + ((civilOfDays d).2.1 - 1)

/-- `HOUR(ts)` of a timestamp in seconds since the epoch. -/
def hourOfTs (t : Int) : Int := (t.emod 86400).fdiv 3600

/-! ## Raw records (one per source row, fields = parse results of the raw
columns consumed by `transform.py`) -/

/-- One element of `raw/cibrs_group_a.json` (columns read by `_transform_crime`).
`incident_date` holds the `TRY_CAST(incident_date AS TIMESTAMP)` parse result;
`victim_age`/`stolen_vehicles` hold their `TRY_CAST(· AS INT)` results;
`lat`/`lng` hold `TRY_CAST(location.coordinates[i] AS DOUBLE)` results
(modelled as exact rationals). -/
structure RawCrime where
  incidentuid : Option String
  incident_date : Option Int
  agency : Option String
  crime_against_category : Option String
  cibrs_grouped_offense_description : Option String
  cibrs_offense_description : Option String
  victim_age : Option Int
  victim_race : Option String
  victim_sex : Option String
  zip_code : Option String
  city : Option String
  domestic_violence_incident : Option Bool
  stolen_vehicles : Option Int
  lat : Option ℚ
  lng : Option ℚ
deriving DecidableEq

/-- One element of `raw/cibrs_group_b.json` (columns read by `_transform_arrests`). -/
structure RawArrest where
  incident_uid : Option String
  arrest_date : Option Int
  arrest_agency : Option String
  offense_code : Option String
  offense_description : Option String
deriving DecidableEq

/-- One row of a `raw/cfs_*.csv` file (columns read by `_transform_cfs`).
`DATE_TIME` holds the `TRY_CAST(DATE_TIME AS TIMESTAMP)` parse result,
`PRIORITY` the `TRY_CAST(PRIORITY AS INT)` result. -/
structure RawCfs where
  INCIDENT_NUM : Option String
  DATE_TIME : Option Int
  CALL_TYPE : Option String
  PRIORITY : Option Int
  DISPOSITION : Option String
  BEAT : Option String
deriving DecidableEq

/-! ## Canonical records (one per output row of the canonical tables) -/

/-- One row of `processed/crime.parquet`. -/
structure Crime where
  incidentuid : Option String
  incident_date : Option Int
  year : Option Int
  month : Option Int
  quarter : Option Int
  dow : Option Int
  month_start : Option Int
  agency : Option String
  agency_short : Option String
  crime_against : Option String
  offense_group : Option String
  offense_description : Option String
  victim_age : Option Int
  victim_race : Option String
  victim_sex : Option String
  zip_code : Option String
  city : Option String
  is_domestic_violence : Bool
  is_stolen_vehicle : Bool
  lat : Option ℚ
  lng : Option ℚ
deriving DecidableEq

/-- One row of `processed/arrests.parquet`. -/
structure Arrest where
  incidentuid : Option String
  incident_date : Option Int
  year : Option Int
  month : Option Int
  quarter : Option Int
  dow : Option Int
  month_start : Option Int
  agency : Option String
  agency_short : Option String
  offense_code : Option String
  offense_description : Option String
deriving DecidableEq

/-- One row of `processed/cfs.parquet`. -/
structure Cfs where
  incident_num : Option String
  call_timestamp : Option Int
  call_date : Option Int
  year : Option Int
  month : Option Int
  dow : Option Int
  hour : Option Int
  month_start : Option Int
  call_type : Option String
  call_type_desc : Option String
  priority : Option Int
  disposition : Option String
  dispo_desc : Option String
  beat : Option String
deriving DecidableEq

/-! ## Dedup-by-recency

Model of the SQL pattern in `_transform_crime` and `_transform_cfs`:

  ROW_NUMBER() OVER (PARTITION BY key ORDER BY ts DESC NULLS LAST) AS _rn
  ... WHERE _rn = 1

A row survives when no row of the same partition ranks strictly before it
under the order (timestamp descending, NULLs last, ties broken by original
input position — the deterministic reading of `ROW_NUMBER` used throughout
the pipeline).  Rows are tagged with their input position first. -/

/-- Rank of an optional timestamp under `DESC NULLS LAST`: `NULL` sorts
below every concrete timestamp. -/
def tsRank (x : Option Int) : WithBot Int :=
  match x with
  | none => ⊥
  | some t => (t : WithBot Int)

/-- Tag list elements with their positions, starting at `n`. -/
def enumFrom (n : ℕ) : List α → List (ℕ × α)
  | [] => []
  | a :: l => (n, a) :: enumFrom (n + 1) l

/-- Does tagged row `q` rank strictly before tagged row `p`
(larger timestamp, or equal timestamp and earlier input position)? -/
def beats (ts : α → Option Int) (q p : ℕ × α) : Bool :=
  decide (tsRank (ts p.2) < tsRank (ts q.2)) ||
    (decide (tsRank (ts q.2) = tsRank (ts p.2)) && decide (q.1 < p.1))

/-- Does tagged row `p` get `_rn = 1` in its partition of `e`? -/
def survives [DecidableEq κ] (key : α → κ) (ts : α → Option Int)
    (e : List (ℕ × α)) (p : ℕ × α) : Bool :=
  e.all fun q => !(decide (key q.2 = key p.2) && beats ts q p)

/-- The tagged rows that receive `_rn = 1`. -/
def latestSurvivors [DecidableEq κ] (key : α → κ) (ts : α → Option Int)
    (l : List α) : List (ℕ × α) :=
  (enumFrom 0 l).filter (survives key ts (enumFrom 0 l))

/-- The deduplicated table: one surviving row per natural-key partition. -/
def dedupLatest [DecidableEq κ] (key : α → κ) (ts : α → Option Int)
    (l : List α) : List α :=
  (latestSurvivors key ts l).map Prod.snd

theorem enumFrom_pairwise_lt (n : ℕ) (l : List α) :
    (enumFrom n l).Pairwise fun p q => p.1 < q.1 := by
  induction l generalizing n with
  | nil => simp [enumFrom]
  | cons a l ih =>
    refine List.Pairwise.cons ?_ (ih (n + 1))
    intro q hq
    have : n + 1 ≤ q.1 := by
      clear ih
      induction l generalizing n with
      | nil => simp [enumFrom] at hq
      | cons b l ih2 =>
        simp only [enumFrom, List.mem_cons] at hq
        rcases hq with rfl | hq
        · exact le_refl _
        · exact le_trans (Nat.le_succ _) (ih2 (n + 1) hq)
    exact lt_of_lt_of_le (Nat.lt_succ_self n) this

theorem mem_enumFrom_of_mem {l : List α} {r : α} (h : r ∈ l) (n : ℕ) :
    ∃ i, (i, r) ∈ enumFrom n l := by
  induction l generalizing n with
  | nil => simp at h
  | cons a l ih =>
    rcases List.mem_cons.mp h with rfl | h
    · exact ⟨n, List.mem_cons_self _ _⟩
    · obtain ⟨i, hi⟩ := ih h (n + 1)
      exact ⟨i, List.mem_cons_of_mem _ hi⟩

theorem snd_mem_of_mem_enumFrom {l : List α} {p : ℕ × α} {n : ℕ}
    (h : p ∈ enumFrom n l) : p.2 ∈ l := by
  induction l generalizing n with
  | nil => simp [enumFrom] at h
  | cons a l ih =>
    simp only [enumFrom, List.mem_cons] at h
    rcases h with rfl | h
    · exact List.mem_cons_self _ _
    · exact List.mem_cons_of_mem _ (ih h)

theorem beats_self_false (ts : α → Option Int) (p : ℕ × α) :
    beats ts p p = false := by
  simp [beats]

theorem beats_total (ts : α → Option Int) {q p : ℕ × α} (h : q.1 ≠ p.1) :
    beats ts q p = true ∨ beats ts p q = true := by
  rcases lt_trichotomy (tsRank (ts q.2)) (tsRank (ts p.2)) with hlt | heq | hgt
  · right; simp [beats, hlt]
  · rcases Nat.lt_or_ge q.1 p.1 with hq | hq
    · left; simp [beats, heq, hq]
    · right
      have : p.1 < q.1 := lt_of_le_of_ne hq (Ne.symm h)
      simp [beats, heq, this]
  · left; simp [beats, hgt]

theorem beats_trans (ts : α → Option Int) {a b c : ℕ × α}
    (hab : beats ts a b = true) (hbc : beats ts b c = true) :
    beats ts a c = true := by
  simp only [beats, Bool.or_eq_true, Bool.and_eq_true, decide_eq_true_eq] at *
  rcases hab with h1 | ⟨h1, h1i⟩ <;> rcases hbc with h2 | ⟨h2, h2i⟩
  · exact Or.inl (lt_trans h2 h1)
  · exact Or.inl (h2 ▸ h1)
  · exact Or.inl (by rw [h1]; exact h2)
  · exact Or.inr ⟨h1.trans h2, Nat.lt_trans h1i h2i⟩

theorem survives_iff [DecidableEq κ] (key : α → κ) (ts : α → Option Int)
    (e : List (ℕ × α)) (p : ℕ × α) :
    survives key ts e p = true ↔
      ∀ q ∈ e, key q.2 = key p.2 → beats ts q p = false := by
  simp only [survives, List.all_eq_true, Bool.not_eq_true']
  constructor
  · intro h q hq hk
    have := h q hq
    simpa [hk] using this
  · intro h q hq
    by_cases hk : key q.2 = key p.2
    · simp [hk, h q hq hk]
    · simp [hk]

theorem exists_unbeaten (ts : α → Option Int) :
    ∀ (P : List (ℕ × α)), P ≠ [] → ∃ M ∈ P, ∀ q ∈ P, beats ts q M = false := by
  intro P
  induction P with
  | nil => intro h; exact absurd rfl h
  | cons a P ih =>
    intro _
    rcases P.eq_nil_or_concat.imp_left id with hP | _
    case inl =>
      subst hP
      refine ⟨a, List.mem_cons_self _ _, ?_⟩
      intro q hq
      rcases List.mem_singleton.mp hq with rfl
      exact beats_self_false ts q
    all_goals {
      rcases P with _ | ⟨b, P⟩
      · refine ⟨a, List.mem_cons_self _ _, ?_⟩
        intro q hq
        rcases List.mem_singleton.mp hq with rfl
        exact beats_self_false ts q
      · obtain ⟨M, hM, hMmax⟩ := ih (List.cons_ne_nil _ _)
        by_cases hba : beats ts a M = true
        · refine ⟨a, List.mem_cons_self _ _, ?_⟩
          intro q hq
          rcases List.mem_cons.mp hq with rfl | hq
          · exact beats_self_false ts q
          · by_contra hqa
            have hqa' : beats ts q a = true := by
              revert hqa; cases beats ts q a <;> simp
            have : beats ts q M = true := beats_trans ts hqa' hba
            have := hMmax q hq
            simp [this] at *
        · refine ⟨M, List.mem_cons_of_mem _ hM, ?_⟩
          intro q hq
          rcases List.mem_cons.mp hq with rfl | hq
          · revert hba; cases beats ts q M <;> simp
          · exact hMmax q hq
    }

/-- Survivor keys are pairwise distinct: no two rows of the deduplicated
table share the natural key. -/
theorem latestSurvivors_keys_pairwise [DecidableEq κ] (key : α → κ)
    (ts : α → Option Int) (l : List α) :
    (latestSurvivors key ts l).Pairwise fun p q => key p.2 ≠ key q.2 := by
  have hpw : (latestSurvivors key ts l).Pairwise fun p q => p.1 < q.1 :=
    (enumFrom_pairwise_lt 0 l).filter _
  refine hpw.imp_of_mem ?_
  intro p q hp hq hlt hkey
  have hpe : p ∈ enumFrom 0 l := (List.mem_filter.mp hp).1
  have hqe : q ∈ enumFrom 0 l := (List.mem_filter.mp hq).1
  have hps : survives key ts (enumFrom 0 l) p = true := by
    simpa using (List.mem_filter.mp hp).2
  have hqs : survives key ts (enumFrom 0 l) q = true := by
    simpa using (List.mem_filter.mp hq).2
  have hne : q.1 ≠ p.1 := Nat.ne_of_gt hlt
  rcases beats_total ts hne with hb | hb
  · have := (survives_iff key ts _ p).mp hps q hqe hkey.symm
    rw [hb] at this; cases this
  · have := (survives_iff key ts _ q).mp hqs p hpe hkey
    rw [hb] at this; cases this

/-- Each surviving row carries the maximum timestamp of its natural-key
partition, and among timestamp ties it is the earliest input row. -/
theorem latestSurvivors_max [DecidableEq κ] (key : α → κ) (ts : α → Option Int)
    (l : List α) (p : ℕ × α) (hp : p ∈ latestSurvivors key ts l)
    (q : ℕ × α) (hq : q ∈ enumFrom 0 l) (hkey : key q.2 = key p.2) :
    tsRank (ts q.2) ≤ tsRank (ts p.2) ∧
      (tsRank (ts q.2) = tsRank (ts p.2) → p.1 ≤ q.1) := by
  have hps : survives key ts (enumFrom 0 l) p = true := by
    simpa using (List.mem_filter.mp hp).2
  have hb := (survives_iff key ts _ p).mp hps q hq hkey
  simp only [beats, Bool.or_eq_false_iff, Bool.and_eq_false_iff,
    decide_eq_false_iff_not, not_lt] at hb
  refine ⟨hb.1, fun he => ?_⟩
  rcases hb.2 with h | h
  · exact absurd he h
  · exact h

/-- Every natural key present in the input has a survivor. -/
theorem latestSurvivors_exists [DecidableEq κ] (key : α → κ)
    (ts : α → Option Int) (l : List α) (r : α) (hr : r ∈ l) :
    ∃ p ∈ latestSurvivors key ts l, key p.2 = key r := by
  obtain ⟨i, hi⟩ := mem_enumFrom_of_mem hr 0
  have hPne : (enumFrom 0 l).filter (fun q => decide (key q.2 = key r)) ≠ [] := by
    intro hnil
    have : (i, r) ∈ (enumFrom 0 l).filter (fun q => decide (key q.2 = key r)) :=
      List.mem_filter.mpr ⟨hi, by simp⟩
    rw [hnil] at this
    simp at this
  obtain ⟨M, hM, hMmax⟩ := exists_unbeaten ts _ hPne
  have hMe : M ∈ enumFrom 0 l := (List.mem_filter.mp hM).1
  have hMkey : key M.2 = key r := by
    have := (List.mem_filter.mp hM).2
    simpa using this
  refine ⟨M, List.mem_filter.mpr ⟨hMe, ?_⟩, hMkey⟩
  rw [survives_iff]
  intro q hq hqk
  exact hMmax q (List.mem_filter.mpr ⟨hq, by simp [hqk, hMkey]⟩)

/-! ## Canonicalizer (`_transform_crime`, `_transform_arrests`, `_transform_cfs`) -/

/-- The `PARTITION BY incidentuid, cibrs_offense_description` natural key. -/
def crimeKey (r : RawCrime) : Option String × Option String :=
  (r.incidentuid, r.cibrs_offense_description)

/-- The column list of the `crime` SELECT in `_transform_crime`, one output
row per raw row (dedup is applied separately). -/
def crimeOfRaw (r : RawCrime) : Crime :=
  { incidentuid := r.incidentuid
    incident_date := r.incident_date.map dateOfTs
    year := r.incident_date.map fun t => yearOfDay (dateOfTs t)
    month := r.incident_date.map fun t => monthOfDay (dateOfTs t)
    quarter := r.incident_date.map fun t => quarterOfDay (dateOfTs t)
    dow := r.incident_date.map fun t => dowOfDay (dateOfTs t)
    month_start := r.incident_date.map fun t => monthStartOfDay (dateOfTs t)
    agency := r.agency
    agency_short := r.agency.map agencyShort
    crime_against := r.crime_against_category
    offense_group := r.cibrs_grouped_offense_description
    offense_description := r.cibrs_offense_description
    victim_age := r.victim_age
    victim_race := r.victim_race
    victim_sex := r.victim_sex
    zip_code := r.zip_code
    city := r.city
    is_domestic_violence := r.domestic_violence_incident.getD false
    is_stolen_vehicle :=
      (match r.stolen_vehicles with
        | some n => decide (n > 0)
        | none => false) ||
      (match r.cibrs_offense_description with
        | some d => hasSub "motor vehicle theft".data (lowerChars d)
        | none => false)
    lat := r.lat
    lng := r.lng }

/-- `processed/crime.parquet`: the deduplicated canonical crime table. -/
def transform_crime (l : List RawCrime) : List Crime :=
  (dedupLatest crimeKey (fun r => r.incident_date) l).map crimeOfRaw

/-- The arrests SELECT of `_transform_arrests`: a pure per-row projection,
with no `ROW_NUMBER` window and no dedup filter. -/
def arrestOfRaw (r : RawArrest) : Arrest :=
  { incidentuid := r.incident_uid
    incident_date := r.arrest_date.map dateOfTs
    year := r.arrest_date.map fun t => yearOfDay (dateOfTs t)
    month := r.arrest_date.map fun t => monthOfDay (dateOfTs t)
    quarter := r.arrest_date.map fun t => quarterOfDay (dateOfTs t)
    dow := r.arrest_date.map fun t => dowOfDay (dateOfTs t)
    month_start := r.arrest_date.map fun t => monthStartOfDay (dateOfTs t)
    agency := r.arrest_agency
    agency_short := r.arrest_agency.map agencyShort
    offense_code := r.offense_code
    offense_description := r.offense_description }

/-- `processed/arrests.parquet`. -/
def transform_arrests (l : List RawArrest) : List Arrest :=
  l.map arrestOfRaw

/-- A reference CSV (`call_type_desc.csv` / `dispo_code_desc.csv`) as a
code-to-DESCRIPTION association list; the `LEFT JOIN ... ON code = ref.code`
lookup is the first matching entry, `NULL` join keys never match. -/
def refLookup (ref : List (String × String)) (code : Option String) :
    Option String :=
  match code with
  | none => none
  | some c => (ref.find? fun p => p.1 == c).map Prod.snd

/-- `COALESCE(ct.DESCRIPTION, cfs_raw.CALL_TYPE)` when the reference table
was loaded, plain `cfs_raw.CALL_TYPE` otherwise. -/
def enrich (ref : Option (List (String × String))) (code : Option String) :
    Option String :=
  match ref with
  | none => code
  | some tbl => (refLookup tbl code).orElse fun _ => code

/-- The column list of the `cfs_dedup` SELECT in `_transform_cfs`, one output
row per raw row. -/
def cfsOfRaw (callTypeRef dispoRef : Option (List (String × String)))
    (r : RawCfs) : Cfs :=
  { incident_num := r.INCIDENT_NUM
    call_timestamp := r.DATE_TIME
    call_date := r.DATE_TIME.map dateOfTs
    year := r.DATE_TIME.map fun t => yearOfDay (dateOfTs t)
    month := r.DATE_TIME.map fun t => monthOfDay (dateOfTs t)
    dow := r.DATE_TIME.map fun t => dowOfDay (dateOfTs t)
    hour := r.DATE_TIME.map hourOfTs
    month_start := r.DATE_TIME.map fun t => monthStartOfDay (dateOfTs t)
    call_type := r.CALL_TYPE
    call_type_desc := enrich callTypeRef r.CALL_TYPE
    priority := r.PRIORITY
    disposition := r.DISPOSITION
    dispo_desc := enrich dispoRef r.DISPOSITION
    beat := r.BEAT }

/-- `processed/cfs.parquet`: deduplicated on `PARTITION BY INCIDENT_NUM`,
latest `DATE_TIME` first.  The reference-table joins are per-row lookups, so
they commute with the dedup filter. -/
def transform_cfs (callTypeRef dispoRef : Option (List (String × String)))
    (l : List RawCfs) : List Cfs :=
  (dedupLatest (fun r => r.INCIDENT_NUM) (fun r => r.DATE_TIME) l).map
    (cfsOfRaw callTypeRef dispoRef)

/-! ## Grouping machinery (`GROUP BY` / `COUNT` / `SUM(CASE WHEN ...)`) -/

/-- The distinct grouping keys of a table, in first-appearance order. -/
def keysOf [DecidableEq κ] (key : α → κ) (l : List α) : List κ :=
  (l.map key).dedup

/-- The rows of one `GROUP BY` partition. -/
def groupOf [DecidableEq κ] (key : α → κ) (k : κ) (l : List α) : List α :=
  l.filter fun r => decide (key r = k)

theorem sum_ite_eq_zero_of_not_mem [DecidableEq κ] {D : List κ} {x : κ}
    (hx : x ∉ D) (c : ℕ) :
    (D.map fun k => if x = k then c else 0).sum = 0 := by
  induction D with
  | nil => simp
  | cons a D ih =>
    have hxa : x ≠ a := fun h => hx (h ▸ List.mem_cons_self a D)
    have hxD : x ∉ D := fun h => hx (List.mem_cons_of_mem a h)
    simp [hxa, ih hxD]

theorem sum_ite_eq_of_nodup [DecidableEq κ] {D : List κ} (hD : D.Nodup)
    {x : κ} (hx : x ∈ D) (c : ℕ) :
    (D.map fun k => if x = k then c else 0).sum = c := by
  induction D with
  | nil => simp at hx
  | cons a D ih =>
    by_cases hxa : x = a
    · subst hxa
      have hxD : x ∉ D := (List.nodup_cons.mp hD).1
      simp [sum_ite_eq_zero_of_not_mem hxD]
    · have hxD : x ∈ D := by
        rcases List.mem_cons.mp hx with h | h
        · exact absurd h hxa
        · exact h
      simp [hxa, ih (List.nodup_cons.mp hD).2 hxD]

theorem sum_map_add_nat (D : List κ) (f g : κ → ℕ) :
    (D.map fun k => f k + g k).sum = (D.map f).sum + (D.map g).sum := by
  induction D with
  | nil => simp
  | cons a D ih => simp [ih]; omega

/-- Summing any per-row tally over all `GROUP BY` partitions named by a
covering duplicate-free key list equals the tally over the whole table. -/
theorem partition_countP [DecidableEq κ] (key : α → κ) (p : α → Bool)
    (D : List κ) (hD : D.Nodup) (l : List α) (hcov : ∀ r ∈ l, key r ∈ D) :
    (D.map fun k => (groupOf key k l).countP p).sum = l.countP p := by
  induction l with
  | nil => simp [groupOf]
  | cons a l ih =>
    have hterm : ∀ k, (groupOf key k (a :: l)).countP p =
        (groupOf key k l).countP p + if key a = k then (if p a then 1 else 0) else 0 := by
      intro k
      simp only [groupOf, List.filter_cons]
      by_cases hk : key a = k
      · simp [hk, List.countP_cons]
      · simp [hk]
    have hcov' : ∀ r ∈ l, key r ∈ D := fun r hr => hcov r (List.mem_cons_of_mem a hr)
    calc (D.map fun k => (groupOf key k (a :: l)).countP p).sum
        = (D.map fun k => (groupOf key k l).countP p +
            if key a = k then (if p a then 1 else 0) else 0).sum := by
          congr 1
          exact List.map_congr_left fun k _ => hterm k
      _ = (D.map fun k => (groupOf key k l).countP p).sum +
            (D.map fun k => if key a = k then (if p a then 1 else 0) else 0).sum := by
          exact sum_map_add_nat D _ _
      _ = l.countP p + (if p a then 1 else 0) := by
          rw [ih hcov', sum_ite_eq_of_nodup hD (hcov a (List.mem_cons_self a l))]
      _ = (a :: l).countP p := by
          simp [List.countP_cons]

theorem keysOf_nodup [DecidableEq κ] (key : α → κ) (l : List α) :
    (keysOf key l).Nodup :=
  List.nodup_dedup _

theorem keysOf_cover [DecidableEq κ] (key : α → κ) (l : List α) :
    ∀ r ∈ l, key r ∈ keysOf key l := fun _r hr =>
  List.mem_dedup.mpr (List.mem_map_of_mem key hr)

/-- `COUNT(*)` per partition, summed over the partitions of a table. -/
theorem sum_group_lengths [DecidableEq κ] (key : α → κ) (l : List α) :
    ((keysOf key l).map fun k => (groupOf key k l).length).sum = l.length := by
  have h := partition_countP key (fun _ => true) (keysOf key l)
    (keysOf_nodup key l) l (keysOf_cover key l)
  simpa [List.countP_true] using h

/-- `SUM(CASE WHEN flag THEN 1 ELSE 0 END)` per partition, summed over the
partitions of a table. -/
theorem sum_group_countP [DecidableEq κ] (key : α → κ) (p : α → Bool)
    (l : List α) :
    ((keysOf key l).map fun k => (groupOf key k l).countP p).sum = l.countP p :=
  partition_countP key p (keysOf key l) (keysOf_nodup key l) l (keysOf_cover key l)

/-! ## Aggregation views (`_build_aggregations`)

Each view is translated from its SQL: a `WHERE` filter over the canonical
table, a `GROUP BY` key, and `COUNT(*)` / `SUM(CASE WHEN flag THEN 1 ELSE 0 END)`
metrics.  Final `ORDER BY` clauses only permute rows and are omitted. -/

/-- County bounding box constant `_SD_LAT_MIN = 32.5` (written as an exact
rational). -/
def SD_LAT_MIN : ℚ := mkRat 65 2

/-- Northern latitude bound `_SD_LAT_MAX = 33.3`. -/
def SD_LAT_MAX : ℚ := mkRat 333 10

/-- Western longitude bound `_SD_LNG_MIN = -117.7`. -/
def SD_LNG_MIN : ℚ := mkRat (-1177) 10

/-- Eastern longitude bound `_SD_LNG_MAX = -116.8`. -/
def SD_LNG_MAX : ℚ := mkRat (-584) 5

/-- `crime_overview_monthly.parquet`. -/
def crime_overview_monthly (l : List Crime) :
    List ((Option Int × Option String × Option String) × ℕ) :=
  let f := l.filter fun r => r.month_start.isSome
  (keysOf (fun r => (r.month_start, r.agency_short, r.crime_against)) f).map
    fun k => (k, (groupOf (fun r => (r.month_start, r.agency_short, r.crime_against)) k f).length)

/-- `crime_by_type.parquet`. -/
def crime_by_type (l : List Crime) :
    List ((Option String × Option String × Option String × Option Int) × ℕ) :=
  let f := l.filter fun r => r.year.isSome
  (keysOf (fun r => (r.offense_group, r.offense_description, r.crime_against, r.year)) f).map
    fun k => (k, (groupOf (fun r => (r.offense_group, r.offense_description, r.crime_against, r.year)) k f).length)

/-- `crime_by_zip.parquet`. -/
def crime_by_zip (l : List Crime) :
    List ((Option String × Option String × Option Int × Option String) × ℕ) :=
  let f := l.filter fun r => r.zip_code.isSome && r.year.isSome
  (keysOf (fun r => (r.zip_code, r.city, r.year, r.crime_against)) f).map
    fun k => (k, (groupOf (fun r => (r.zip_code, r.city, r.year, r.crime_against)) k f).length)

/-- `crime_by_agency.parquet` (metrics `count` and `dv_count`). -/
def crime_by_agency (l : List Crime) :
    List ((Option String × Option Int × Option String) × ℕ × ℕ) :=
  let f := l.filter fun r => r.year.isSome
  (keysOf (fun r => (r.agency_short, r.year, r.crime_against)) f).map
    fun k =>
      let g := groupOf (fun r => (r.agency_short, r.year, r.crime_against)) k f
      (k, g.length, g.countP fun r => r.is_domestic_violence)

/-- The `CASE` age-bucket expression of `victim_demographics`. -/
def ageBin (age : Option Int) : String :=
  match age with
  | some a =>
    if a < 18 then "Under 18"
    else if 18 ≤ a ∧ a ≤ 24 then "18-24"
    else if 25 ≤ a ∧ a ≤ 34 then "25-34"
    else if 35 ≤ a ∧ a ≤ 44 then "35-44"
    else if 45 ≤ a ∧ a ≤ 54 then "45-54"
    else if 55 ≤ a ∧ a ≤ 64 then "55-64"
    else if 65 ≤ a then "65+"
    else "Unknown"
  | none => "Unknown"

/-- `victim_demographics.parquet`. -/
def victim_demographics (l : List Crime) :
    List ((String × Option String × Option String × Option String × Option Int) × ℕ) :=
  let f := l.filter fun r => r.year.isSome
  (keysOf (fun r => (ageBin r.victim_age, r.victim_race, r.victim_sex, r.crime_against, r.year)) f).map
    fun k => (k, (groupOf (fun r => (ageBin r.victim_age, r.victim_race, r.victim_sex, r.crime_against, r.year)) k f).length)

/-- `domestic_violence.parquet` (crime table restricted to DV rows). -/
def domestic_violence (l : List Crime) :
    List ((Option String × Option String × Option String × Option Int × Option Int) × ℕ) :=
  let f := l.filter fun r => r.is_domestic_violence && r.year.isSome
  (keysOf (fun r => (r.agency_short, r.offense_group, r.victim_sex, r.year, r.month_start)) f).map
    fun k => (k, (groupOf (fun r => (r.agency_short, r.offense_group, r.victim_sex, r.year, r.month_start)) k f).length)

/-- `temporal_patterns.parquet`. -/
def temporal_patterns (l : List Crime) :
    List ((Option Int × Option Int × Option Int × Option String) × ℕ) :=
  let f := l.filter fun r => r.year.isSome
  (keysOf (fun r => (r.dow, r.month, r.year, r.crime_against)) f).map
    fun k => (k, (groupOf (fun r => (r.dow, r.month, r.year, r.crime_against)) k f).length)

/-- The `WHERE` clause of `map_points`: coordinates present and inside the
county bounding box (SQL `BETWEEN` is inclusive). -/
def inBox (r : Crime) : Bool :=
  match r.lat, r.lng with
  | some a, some b =>
    decide (SD_LAT_MIN ≤ a) && decide (a ≤ SD_LAT_MAX) &&
      decide (SD_LNG_MIN ≤ b) && decide (b ≤ SD_LNG_MAX)
  | _, _ => false

/-- One row of `map_points.parquet`. -/
structure MapPoint where
  lat : Option ℚ
  lng : Option ℚ
  offense_group : Option String
  crime_against : Option String
  agency : Option String
  year : Option Int
  city : Option String
deriving DecidableEq

/-- `map_points.parquet`: the single unaggregated view, a plain filtered
projection of the crime table. -/
def map_points (l : List Crime) : List MapPoint :=
  (l.filter inBox).map fun r =>
    { lat := r.lat, lng := r.lng, offense_group := r.offense_group,
      crime_against := r.crime_against, agency := r.agency_short,
      year := r.year, city := r.city }

/-- One row of `yearly_summary.parquet`. -/
structure YearlyRow where
  year : Option Int
  total : ℕ
  person_crimes : ℕ
  property_crimes : ℕ
  society_crimes : ℕ
  dv_total : ℕ
  stolen_vehicle_total : ℕ
deriving DecidableEq

/-- `yearly_summary.parquet`. -/
def yearly_summary (l : List Crime) : List YearlyRow :=
  let f := l.filter fun r => r.year.isSome
  (keysOf (fun r => r.year) f).map fun y =>
    let g := groupOf (fun r => r.year) y f
    { year := y
      total := g.length
      person_crimes := g.countP fun r => decide (r.crime_against = some "People")
      property_crimes := g.countP fun r => decide (r.crime_against = some "Property")
      society_crimes := g.countP fun r => decide (r.crime_against = some "Society")
      dv_total := g.countP fun r => r.is_domestic_violence
      stolen_vehicle_total := g.countP fun r => r.is_stolen_vehicle }

/-- `crime_by_city.parquet`. -/
def crime_by_city (l : List Crime) :
    List ((Option String × Option Int × Option String) × ℕ) :=
  let f := l.filter fun r => r.city.isSome && r.year.isSome
  (keysOf (fun r => (r.city, r.year, r.crime_against)) f).map
    fun k => (k, (groupOf (fun r => (r.city, r.year, r.crime_against)) k f).length)

/-- `arrests_by_type.parquet`. -/
def arrests_by_type (l : List Arrest) :
    List ((Option String × Option String × Option Int × Option Int) × ℕ) :=
  let f := l.filter fun r => r.year.isSome
  (keysOf (fun r => (r.offense_description, r.agency_short, r.year, r.month_start)) f).map
    fun k => (k, (groupOf (fun r => (r.offense_description, r.agency_short, r.year, r.month_start)) k f).length)

/-- `cfs_monthly.parquet`. -/
def cfs_monthly (l : List Cfs) :
    List ((Option Int × Option Int × Option String × Option Int) × ℕ) :=
  let f := l.filter fun r => r.month_start.isSome
  (keysOf (fun r => (r.month_start, r.year, r.call_type_desc, r.priority)) f).map
    fun k => (k, (groupOf (fun r => (r.month_start, r.year, r.call_type_desc, r.priority)) k f).length)

/-- `cfs_by_beat.parquet`. -/
def cfs_by_beat (l : List Cfs) :
    List ((Option String × Option Int × Option String × Option Int × Option String) × ℕ) :=
  let f := l.filter fun r => r.beat.isSome && r.year.isSome
  (keysOf (fun r => (r.beat, r.year, r.call_type_desc, r.priority, r.disposition)) f).map
    fun k => (k, (groupOf (fun r => (r.beat, r.year, r.call_type_desc, r.priority, r.disposition)) k f).length)

/-- `cfs_temporal.parquet`. -/
def cfs_temporal (l : List Cfs) :
    List ((Option Int × Option Int × Option Int) × ℕ) :=
  let f := l.filter fun r => r.dow.isSome && r.hour.isSome
  (keysOf (fun r => (r.dow, r.hour, r.priority)) f).map
    fun k => (k, (groupOf (fun r => (r.dow, r.hour, r.priority)) k f).length)

/-! ## Source fetcher (`src/pipeline/ingest.py`)

`_csv_download` streams the response body to `out_path` in 1 MiB chunks with
`open(out_path, "wb")` — directly under the artifact's final name, with no
temporary file and no rename.  `_soda_fetch` likewise ends with
`out_path.write_text(json.dumps(all_rows))`.  We model the on-disk state of
`out_path` during such a direct write, and the HTTP status handling. -/

/-- The write loop `for chunk in r.iter_bytes(...): f.write(chunk)`: each
iteration appends one chunk to the open file's content. -/
def writeLoop (file : List (List ℕ)) : List (List ℕ) → List (List ℕ)
  | [] => file
  | c :: rest => writeLoop (file ++ [c]) rest

/-- On-disk content of `out_path` after the stream loop of `_csv_download`
has run `k` of its iterations: `open(out_path, "wb")` creates the file
(empty), then the loop appends chunk after chunk.  An interrupted download
is exactly a halt at some `k < chunks.length`. -/
def csvDiskAfter (chunks : List (List ℕ)) (k : ℕ) : Option (List (List ℕ)) :=
  some (writeLoop [] (chunks.take k))

/-- On-disk content of `out_path` while `out_path.write_text(data)` in
`_soda_fetch` is underway, `k` bytes in: the file exists under its final
name holding a prefix of the payload. -/
def sodaDiskAfter (data : List ℕ) (k : ℕ) : Option (List ℕ) :=
  some (data.take k)

/-- The cache check `if out_path.exists() and not force` that both fetchers
run before downloading: any file under the expected name is accepted as a
valid cached artifact. -/
def cacheHit (disk : Option α) (force : Bool) : Bool :=
  disk.isSome && !force

/-- Model of `_csv_download`'s control flow for one URL, given whether a
cached file exists, the force flag, and the HTTP status of the response.
`raise_for_status` raises for any status ≥ 400; the handler returns `None`
(no artifact) for 403 and re-raises anything else.  `.ok (some ())` is a
returned artifact path, `.ok none` is the skipped-future-year case, and
`.error s` is a propagated `HTTPStatusError`. -/
def csv_download (cached : Bool) (force : Bool) (status : ℕ) :
    Except ℕ (Option Unit) :=
  if cached && !force then .ok (some ())
  else if status < 400 then .ok (some ())
  else if status = 403 then .ok none
  else .error status

/-- The calls-for-service loop of `ingest`: one `_csv_download` per year,
appending the returned path when it is not `None`, propagating any raised
error. -/
def cfsIngestLoop (cached : ℤ → Bool) (force : Bool) (status : ℤ → ℕ) :
    List ℤ → Except ℕ (List ℤ)
  | [] => .ok []
  | y :: ys =>
    match csv_download (cached y) force (status y) with
    | .error e => .error e
    | .ok none => cfsIngestLoop cached force status ys
    | .ok (some _) => (cfsIngestLoop cached force status ys).map fun ps => y :: ps

/-! ## Transform orchestration (`transform` in `src/pipeline/transform.py`)

`_transform_crime` and `_transform_arrests` call
`read_json('<raw path>', ...)` unconditionally — DuckDB raises an IO error
when the file is missing, and `transform` has no handler, so the error
propagates out of the whole stage.  Only `_transform_cfs` guards its input
(`if not csv_files: print WARNING; return`). -/

/-- The raw artifacts visible to the transform stage. -/
structure RawFS where
  cibrs_group_a : Option (List RawCrime)
  cibrs_group_b : Option (List RawArrest)
  cfs_csvs : List (List RawCfs)
  call_type_ref : Option (List (String × String))
  dispo_ref : Option (List (String × String))

/-- An uncaught exception escaping the transform stage. -/
inductive TransformError where
  | missing_crime_artifact
  | missing_arrests_artifact
deriving DecidableEq

/-- The canonical tables materialized by one transform run
(`none` = the parquet file was not written). -/
structure Canonical where
  crime : Option (List Crime)
  arrests : Option (List Arrest)
  cfs : Option (List Cfs)
deriving DecidableEq

/-- `transform()`: the three tracks in order.  A missing
`cibrs_group_a.json` or `cibrs_group_b.json` raises out of `read_json` and
aborts the stage; an empty `cfs_*.csv` glob only skips the calls track. -/
def transformRun (fs : RawFS) : Except TransformError Canonical :=
  match fs.cibrs_group_a with
  | none => .error .missing_crime_artifact
  | some rawCrime =>
    match fs.cibrs_group_b with
    | none => .error .missing_arrests_artifact
    | some rawArrests =>
      let cfsTable : Option (List Cfs) :=
        match fs.cfs_csvs with
        | [] => none
        | files => some (transform_cfs fs.call_type_ref fs.dispo_ref files.flatten)
      .ok { crime := some (transform_crime rawCrime)
            arrests := some (transform_arrests rawArrests)
            cfs := cfsTable }

/-- The aggregation outputs `_build_aggregations` writes, given which
canonical parquet files exist: each block is guarded by
`if <table>_path.exists()`. -/
def aggFilesBuilt (c : Canonical) : List String :=
  (if c.crime.isSome then
    ["crime_overview_monthly", "crime_by_type", "crime_by_zip",
     "crime_by_agency", "victim_demographics", "domestic_violence",
     "temporal_patterns", "map_points", "yearly_summary", "crime_by_city"]
   else []) ++
  (if c.arrests.isSome then ["arrests_by_type"] else []) ++
  (if c.cfs.isSome then ["cfs_monthly", "cfs_by_beat", "cfs_temporal"] else [])

/-! ## Validator (`src/pipeline/validate.py`)

Each check block is translated to a function returning its printed status
lines and its contribution to the `issues` counter, exactly as coded —
including the Python truthiness guards (`if count and count > N`, where a
0-valued count is falsy). -/

/-- A printed check status. -/
inductive Status where
  | pass
  | warn
  | fail
  | info
deriving DecidableEq

/-- Python truthiness of an optional integer (`None` and `0` are falsy). -/
def truthyI (x : Option ℤ) : Bool :=
  match x with
  | none => false
  | some n => n ≠ 0

/-- `MIN(col)` over an integer column: SQL aggregate, NULL on empty input. -/
def aggMin (l : List ℤ) : Option ℤ :=
  l.foldr (fun x acc => match acc with
    | none => some x
    | some y => some (min x y)) none

/-- `MAX(col)` over an integer column. -/
def aggMax (l : List ℤ) : Option ℤ :=
  l.foldr (fun x acc => match acc with
    | none => some x
    | some y => some (max x y)) none

/-- Insert into a sorted list of integers (ascending). -/
def insSorted (x : ℤ) : List ℤ → List ℤ
  | [] => [x]
  | y :: l => if x ≤ y then x :: y :: l else y :: insSorted x l

/-- Ascending sort, for `GROUP BY year ORDER BY year`. -/
def sortInts (l : List ℤ) : List ℤ :=
  l.foldr insSorted []

/-- The tables and aggregation files visible to `validate()`. -/
structure ValInput where
  crime : Option (List Crime)
  arrests : Option (List Arrest)
  cfs : Option (List Cfs)
  aggs : List String
  currentYear : ℤ

/-- One file-existence line of check 1. -/
def existLine (present : Bool) : List Status × ℕ :=
  if present then ([.pass], 0) else ([.fail], 1)

/-- Check 1: file existence of the three canonical tables. -/
def check1 (s : ValInput) : List Status × ℕ :=
  let c := existLine s.crime.isSome
  let a := existLine s.arrests.isSome
  let f := existLine s.cfs.isSome
  (c.1 ++ a.1 ++ f.1, c.2 + a.2 + f.2)

/-- Check 2: crime row count (expect > 500K). -/
def check2 (s : ValInput) : List Status × ℕ :=
  match s.crime with
  | none => ([], 0)
  | some crime =>
    let count : ℤ := crime.length
    if count ≠ 0 ∧ count > 500000 then ([.pass], 0) else ([.warn], 1)

/-- Check 3: crime date range (min year ≤ 2021 and max year ≥ current − 1). -/
def check3 (s : ValInput) : List Status × ℕ :=
  match s.crime with
  | none => ([], 0)
  | some crime =>
    let years := crime.filterMap fun r => r.year
    let minYr := aggMin years
    let maxYr := aggMax years
    if truthyI minYr && decide (minYr.getD 0 ≤ 2021) && truthyI maxYr &&
        decide (maxYr.getD 0 ≥ s.currentYear - 1) then
      ([.pass], 0)
    else ([.warn], 1)

/-- The outlier predicate of check 4 (SQL three-valued logic: a NULL
comparison contributes false to the OR). -/
def geoOutlier (r : Crime) : Bool :=
  match r.lat with
  | none => false
  | some a =>
    decide (a < SD_LAT_MIN) || decide (a > SD_LAT_MAX) ||
      (match r.lng with
        | some b => decide (b < SD_LNG_MIN) || decide (b > SD_LNG_MAX)
        | none => false)

/-- Check 4: geographic outlier share below 1 % of geolocated rows. -/
def check4 (s : ValInput) : List Status × ℕ :=
  match s.crime with
  | none => ([], 0)
  | some crime =>
    let outliers : ℕ := crime.countP geoOutlier
    let totalGeo : ℕ := crime.countP fun r => r.lat.isSome
    let pct : ℚ := if totalGeo ≠ 0 then (outliers : ℚ) / totalGeo * 100 else 0
    if pct < 1 then ([.pass], 0) else ([.warn], 1)

/-- Check 5: NULL rate below 5 % on each of the four critical columns. -/
def check5 (s : ValInput) : List Status × ℕ :=
  match s.crime with
  | none => ([], 0)
  | some crime =>
    let total : ℕ := crime.length
    let cols : List (Crime → Bool) :=
      [fun r => r.incident_date.isNone, fun r => r.agency_short.isNone,
       fun r => r.crime_against.isNone, fun r => r.offense_group.isNone]
    let res := cols.map fun isNull =>
      let nulls : ℕ := crime.countP isNull
      let pct : ℚ := if total ≠ 0 then (nulls : ℚ) / total * 100 else 0
      if pct < 5 then ((Status.pass), 0) else ((Status.warn), 1)
    (res.map Prod.fst, (res.map Prod.snd).sum)

/-- Check 6: agency distribution, informational only (top 5 groups). -/
def check6 (s : ValInput) : List Status × ℕ :=
  match s.crime with
  | none => ([], 0)
  | some crime =>
    let distinct := (crime.map fun r => r.agency_short).dedup
    (List.replicate (min distinct.length 5) .info, 0)

/-- Check 7: the three expected crime categories are all present. -/
def check7 (s : ValInput) : List Status × ℕ :=
  match s.crime with
  | none => ([], 0)
  | some crime =>
    let cats := crime.filterMap fun r => r.crime_against
    if "People" ∈ cats ∧ "Property" ∈ cats ∧ "Society" ∈ cats then
      ([.pass], 0)
    else ([.warn], 1)

/-- One row of the year/count series of check 8. -/
def yearCounts (crime : List Crime) : List (ℤ × ℕ) :=
  (sortInts ((crime.filterMap fun r => r.year).dedup)).map fun y =>
    (y, crime.countP fun r => decide (r.year = some y))

/-- Check 8: year-over-year volume change beyond ±50 % is WARN. -/
def check8 (s : ValInput) : List Status × ℕ :=
  match s.crime with
  | none => ([], 0)
  | some crime =>
    let rows := yearCounts crime
    let steps := rows.zip rows.tail
    let res := steps.map fun pc =>
      let change : ℚ :=
        if pc.1.2 ≠ 0 then ((pc.2.2 : ℚ) - pc.1.2) / pc.1.2 * 100 else 0
      if |change| > 50 then ((Status.warn), 1) else ((Status.pass), 0)
    (res.map Prod.fst, (res.map Prod.snd).sum)

/-- Check 9: zero duplicate (incidentuid, offense_description) groups. -/
def check9 (s : ValInput) : List Status × ℕ :=
  match s.crime with
  | none => ([], 0)
  | some crime =>
    let key : Crime → Option String × Option String :=
      fun r => (r.incidentuid, r.offense_description)
    let dupes := (keysOf key crime).countP fun k =>
      decide ((groupOf key k crime).length > 1)
    if dupes = 0 then ([.pass], 0) else ([.fail], 1)

/-- Check 10: arrests row count, plus an INFO line of offense types.  The
status is WARN whenever `count > 40_000` fails (including `count == 0`),
but the counter guard is `if count and count <= 40_000` — a 0-row table is
falsy and skips the increment. -/
def check10 (s : ValInput) : List Status × ℕ :=
  match s.arrests with
  | none => ([], 0)
  | some arrests =>
    let count : ℤ := arrests.length
    let st := if count ≠ 0 ∧ count > 40000 then Status.pass else Status.warn
    let inc := if count ≠ 0 ∧ count ≤ 40000 then 1 else 0
    ([st, .info], inc)

/-- Check 11: arrests date range, informational. -/
def check11 (s : ValInput) : List Status × ℕ :=
  match s.arrests with
  | none => ([], 0)
  | some _ => ([.info], 0)

/-- Check 12: CFS row count (expect > 3M). -/
def check12 (s : ValInput) : List Status × ℕ :=
  match s.cfs with
  | none => ([], 0)
  | some cfs =>
    let count : ℤ := cfs.length
    if count ≠ 0 ∧ count > 3000000 then ([.pass], 0) else ([.warn], 1)

/-- Check 13: CFS date range, plus an INFO line of the years present. -/
def check13 (s : ValInput) : List Status × ℕ :=
  match s.cfs with
  | none => ([], 0)
  | some cfs =>
    let years := cfs.filterMap fun r => r.year
    let minYr := aggMin years
    let maxYr := aggMax years
    let st :=
      if truthyI minYr && decide (minYr.getD 0 ≤ 2015) && truthyI maxYr &&
          decide (maxYr.getD 0 ≥ s.currentYear - 1) then
        ((Status.pass), 0)
      else ((Status.warn), 1)
    ([st.1, .info], st.2)

/-- Check 14: CFS beat coverage, informational. -/
def check14 (s : ValInput) : List Status × ℕ :=
  match s.cfs with
  | none => ([], 0)
  | some _ => ([.info], 0)

/-- The 14 expected aggregation outputs of check 15. -/
def expectedAggs : List String :=
  ["crime_overview_monthly", "crime_by_type", "crime_by_zip",
   "crime_by_agency", "victim_demographics", "domestic_violence",
   "temporal_patterns", "map_points", "yearly_summary", "crime_by_city",
   "arrests_by_type",
   "cfs_monthly", "cfs_by_beat", "cfs_temporal"]

/-- Check 15: existence of every expected aggregation file. -/
def check15 (s : ValInput) : List Status × ℕ :=
  let res := expectedAggs.map fun name =>
    if name ∈ s.aggs then ((Status.pass), 0) else ((Status.fail), 1)
  (res.map Prod.fst, (res.map Prod.snd).sum)

/-- `validate()`: all fifteen check blocks in order; returns every printed
status line and the final `issues` counter. -/
def validate (s : ValInput) : List Status × ℕ :=
  let cs := [check1 s, check2 s, check3 s, check4 s, check5 s, check6 s,
    check7 s, check8 s, check9 s, check10 s, check11 s, check12 s,
    check13 s, check14 s, check15 s]
  ((cs.map Prod.fst).flatten, (cs.map Prod.snd).sum)

/-- The number of printed WARN or FAIL lines of a validator run. -/
def warnFailCount (rs : List Status) : ℕ :=
  rs.countP fun st => decide (st = .warn ∨ st = .fail)

/-! ## Concrete fixtures used by witnesses and scenario claims -/

/-- A raw crime row with every column NULL. -/
def rawCrimeBase : RawCrime :=
  { incidentuid := none, incident_date := none, agency := none,
    crime_against_category := none, cibrs_grouped_offense_description := none,
    cibrs_offense_description := none, victim_age := none, victim_race := none,
    victim_sex := none, zip_code := none, city := none,
    domestic_violence_incident := none, stolen_vehicles := none,
    lat := none, lng := none }

/-- The earlier revision of the spec's dedup scenario: key `("X1","Theft")`,
the smaller timestamp. -/
def rcEarlier : RawCrime :=
  { rawCrimeBase with
    incidentuid := some "X1"
    cibrs_offense_description := some "Theft"
    incident_date := some 100 }

/-- The later revision of the spec's dedup scenario: same key, larger
timestamp. -/
def rcLater : RawCrime :=
  { rawCrimeBase with
    incidentuid := some "X1"
    cibrs_offense_description := some "Theft"
    incident_date := some 200 }

/-- A canonical crime row with every nullable column NULL and both flags
false. -/
def crimeBase : Crime :=
  { incidentuid := none, incident_date := none, year := none, month := none,
    quarter := none, dow := none, month_start := none, agency := none,
    agency_short := none, crime_against := none, offense_group := none,
    offense_description := none, victim_age := none, victim_race := none,
    victim_sex := none, zip_code := none, city := none,
    is_domestic_violence := false, is_stolen_vehicle := false,
    lat := none, lng := none }

/-- The spec's yearly-summary scenario table: for year 2023, 100 rows of
category People, 50 Property, 10 Society, and 1 uncategorized row. -/
def scenarioCrime : List Crime :=
  List.replicate 100 { crimeBase with year := some 2023, crime_against := some "People" } ++
  List.replicate 50 { crimeBase with year := some 2023, crime_against := some "Property" } ++
  List.replicate 10 { crimeBase with year := some 2023, crime_against := some "Society" } ++
  [{ crimeBase with year := some 2023 }]

/-- A crime row with in-bounds coordinates (32.7, -117.1). -/
def crimeInBox : Crime :=
  { crimeBase with lat := some (mkRat 327 10), lng := some (mkRat (-1171) 10) }

/-! ## Generic sum lemmas for the aggregation views -/

theorem sum_metric_count [DecidableEq κ] {β : Type} (key : α → κ)
    (flt : α → Bool) (l : List α) (mk : κ → β) (ext : β → ℕ)
    (hext : ∀ k, ext (mk k) = (groupOf key k (l.filter flt)).length) :
    (((keysOf key (l.filter flt)).map mk).map ext).sum = (l.filter flt).length := by
  rw [List.map_map]
  have h2 : (keysOf key (l.filter flt)).map (ext ∘ mk) =
      (keysOf key (l.filter flt)).map
        fun k => (groupOf key k (l.filter flt)).length :=
    List.map_congr_left fun k _ => hext k
  rw [h2]
  exact sum_group_lengths key (l.filter flt)

theorem sum_metric_countP [DecidableEq κ] {β : Type} (key : α → κ)
    (flt : α → Bool) (p : α → Bool) (l : List α) (mk : κ → β) (ext : β → ℕ)
    (hext : ∀ k, ext (mk k) = (groupOf key k (l.filter flt)).countP p) :
    (((keysOf key (l.filter flt)).map mk).map ext).sum = (l.filter flt).countP p := by
  rw [List.map_map]
  have h2 : (keysOf key (l.filter flt)).map (ext ∘ mk) =
      (keysOf key (l.filter flt)).map
        fun k => (groupOf key k (l.filter flt)).countP p :=
    List.map_congr_left fun k _ => hext k
  rw [h2]
  exact sum_group_countP key p (l.filter flt)

/-! ## Claim theorems -/

/-- C10: the canonical arrests table is never deduplicated — `_transform_arrests`
is a pure per-row projection, so the output has exactly one row per raw input
row and every (incident id, offense description) key keeps its full input
multiplicity, duplicate revisions included. -/
theorem arrests_never_deduplicated (l : List RawArrest) :
    (transform_arrests l).length = l.length ∧
    ∀ k : Option String × Option String,
      ((transform_arrests l).countP fun a =>
          decide ((a.incidentuid, a.offense_description) = k)) =
        l.countP fun r => decide ((r.incident_uid, r.offense_description) = k) := by
  constructor
  · simp [transform_arrests]
  · intro k
    rw [transform_arrests, List.countP_map]
    rfl

set_option maxRecDepth 4000 in
/-- C8: the yearly-summary aggregation of a canonical table holding, for
year 2023, 100 People rows, 50 Property rows, 10 Society rows and one
uncategorized row reports total 161, person 100, property 50, society 10. -/
theorem yearly_summary_scenario :
    yearly_summary scenarioCrime =
      [{ year := some 2023, total := 161, person_crimes := 100,
         property_crimes := 50, society_crimes := 10, dv_total := 0,
         stolen_vehicle_total := 0 }] := by
  decide

/-- C6: every row of the map-points view carries non-null coordinates inside
the fixed county bounding box — no canonical crime row outside the box ever
appears in the view. -/
theorem map_points_within_bounds (l : List Crime) :
    ∀ m ∈ map_points l, ∃ a b, m.lat = some a ∧ m.lng = some b ∧
      SD_LAT_MIN ≤ a ∧ a ≤ SD_LAT_MAX ∧ SD_LNG_MIN ≤ b ∧ b ≤ SD_LNG_MAX := by
  intro m hm
  simp only [map_points, List.mem_map, List.mem_filter] at hm
  obtain ⟨r, ⟨_, hbox⟩, rfl⟩ := hm
  unfold inBox at hbox
  cases hla : r.lat with
  | none => rw [hla] at hbox; cases hbox
  | some a =>
    cases hlb : r.lng with
    | none => rw [hla, hlb] at hbox; cases hbox
    | some b =>
      rw [hla, hlb] at hbox
      simp only [Bool.and_eq_true, decide_eq_true_eq] at hbox
      exact ⟨a, b, by simp [hla], by simp [hlb],
        hbox.1.1.1, hbox.1.1.2, hbox.1.2, hbox.2⟩

/-- Witness for C6 at a concrete one-row table. -/
theorem map_points_within_bounds_witness :
    ∃ a b,
      ({ lat := some (mkRat 327 10), lng := some (mkRat (-1171) 10),
         offense_group := none, crime_against := none, agency := none,
         year := none, city := none } : MapPoint).lat = some a ∧
      ({ lat := some (mkRat 327 10), lng := some (mkRat (-1171) 10),
         offense_group := none, crime_against := none, agency := none,
         year := none, city := none } : MapPoint).lng = some b ∧
      SD_LAT_MIN ≤ a ∧ a ≤ SD_LAT_MAX ∧ SD_LNG_MIN ≤ b ∧ b ≤ SD_LNG_MAX :=
  map_points_within_bounds [crimeInBox] _ (by decide)

/-- C2: for every one of the 14 aggregation views, summing the view's metric
column over its rows equals the count (or flag-sum) computed directly over
the view's canonical source table under the same filter; each view is by
definition a function of one canonical table alone.  The unaggregated
`map_points` view contributes its row count (its implicit metric is 1 per
row). -/
theorem aggregation_sum_invariant :
    (∀ l : List Crime,
      ((crime_overview_monthly l).map Prod.snd).sum =
        (l.filter fun r => r.month_start.isSome).length ∧
      ((crime_by_type l).map Prod.snd).sum =
        (l.filter fun r => r.year.isSome).length ∧
      ((crime_by_zip l).map Prod.snd).sum =
        (l.filter fun r => r.zip_code.isSome && r.year.isSome).length ∧
      ((crime_by_agency l).map fun x => x.2.1).sum =
        (l.filter fun r => r.year.isSome).length ∧
      ((crime_by_agency l).map fun x => x.2.2).sum =
        ((l.filter fun r => r.year.isSome).countP fun r => r.is_domestic_violence) ∧
      ((victim_demographics l).map Prod.snd).sum =
        (l.filter fun r => r.year.isSome).length ∧
      ((domestic_violence l).map Prod.snd).sum =
        (l.filter fun r => r.is_domestic_violence && r.year.isSome).length ∧
      ((temporal_patterns l).map Prod.snd).sum =
        (l.filter fun r => r.year.isSome).length ∧
      (map_points l).length = (l.filter inBox).length ∧
      ((yearly_summary l).map fun y => y.total).sum =
        (l.filter fun r => r.year.isSome).length ∧
      ((yearly_summary l).map fun y => y.person_crimes).sum =
        ((l.filter fun r => r.year.isSome).countP fun r =>
          decide (r.crime_against = some "People")) ∧
      ((yearly_summary l).map fun y => y.property_crimes).sum =
        ((l.filter fun r => r.year.isSome).countP fun r =>
          decide (r.crime_against = some "Property")) ∧
      ((yearly_summary l).map fun y => y.society_crimes).sum =
        ((l.filter fun r => r.year.isSome).countP fun r =>
          decide (r.crime_against = some "Society")) ∧
      ((yearly_summary l).map fun y => y.dv_total).sum =
        ((l.filter fun r => r.year.isSome).countP fun r => r.is_domestic_violence) ∧
      ((yearly_summary l).map fun y => y.stolen_vehicle_total).sum =
        ((l.filter fun r => r.year.isSome).countP fun r => r.is_stolen_vehicle) ∧
      ((crime_by_city l).map Prod.snd).sum =
        (l.filter fun r => r.city.isSome && r.year.isSome).length) ∧
    (∀ l : List Arrest,
      ((arrests_by_type l).map Prod.snd).sum =
        (l.filter fun r => r.year.isSome).length) ∧
    (∀ l : List Cfs,
      ((cfs_monthly l).map Prod.snd).sum =
        (l.filter fun r => r.month_start.isSome).length ∧
      ((cfs_by_beat l).map Prod.snd).sum =
        (l.filter fun r => r.beat.isSome && r.year.isSome).length ∧
      ((cfs_temporal l).map Prod.snd).sum =
        (l.filter fun r => r.dow.isSome && r.hour.isSome).length) := by
  refine ⟨fun l => ⟨?_, ?_, ?_, ?_, ?_, ?_, ?_, ?_, ?_, ?_, ?_, ?_, ?_, ?_, ?_, ?_⟩,
    fun l => ?_, fun l => ⟨?_, ?_, ?_⟩⟩
  · exact sum_metric_count (fun r : Crime => (r.month_start, r.agency_short, r.crime_against))
      (fun r : Crime => r.month_start.isSome) l _
      (fun x : (Option Int × Option String × Option String) × ℕ => x.2) (fun _ => rfl)
  · exact sum_metric_count
      (fun r : Crime => (r.offense_group, r.offense_description, r.crime_against, r.year))
      (fun r : Crime => r.year.isSome) l _
      (fun x : (Option String × Option String × Option String × Option Int) × ℕ => x.2)
      (fun _ => rfl)
  · exact sum_metric_count (fun r : Crime => (r.zip_code, r.city, r.year, r.crime_against))
      (fun r : Crime => r.zip_code.isSome && r.year.isSome) l _
      (fun x : (Option String × Option String × Option Int × Option String) × ℕ => x.2)
      (fun _ => rfl)
  · exact sum_metric_count (fun r : Crime => (r.agency_short, r.year, r.crime_against))
      (fun r : Crime => r.year.isSome) l _
      (fun x : (Option String × Option Int × Option String) × ℕ × ℕ => x.2.1) (fun _ => rfl)
  · exact sum_metric_countP (fun r : Crime => (r.agency_short, r.year, r.crime_against))
      (fun r : Crime => r.year.isSome) (fun r : Crime => r.is_domestic_violence) l _
      (fun x : (Option String × Option Int × Option String) × ℕ × ℕ => x.2.2) (fun _ => rfl)
  · exact sum_metric_count
      (fun r : Crime => (ageBin r.victim_age, r.victim_race, r.victim_sex, r.crime_against, r.year))
      (fun r : Crime => r.year.isSome) l _
      (fun x : (String × Option String × Option String × Option String × Option Int) × ℕ => x.2)
      (fun _ => rfl)
  · exact sum_metric_count
      (fun r : Crime => (r.agency_short, r.offense_group, r.victim_sex, r.year, r.month_start))
      (fun r : Crime => r.is_domestic_violence && r.year.isSome) l _
      (fun x : (Option String × Option String × Option String × Option Int × Option Int) × ℕ => x.2)
      (fun _ => rfl)
  · exact sum_metric_count (fun r : Crime => (r.dow, r.month, r.year, r.crime_against))
      (fun r : Crime => r.year.isSome) l _
      (fun x : (Option Int × Option Int × Option Int × Option String) × ℕ => x.2)
      (fun _ => rfl)
  · simp [map_points]
  · exact sum_metric_count (fun r : Crime => r.year) (fun r : Crime => r.year.isSome) l _
      YearlyRow.total (fun _ => rfl)
  · exact sum_metric_countP (fun r : Crime => r.year) (fun r : Crime => r.year.isSome)
      (fun r : Crime => decide (r.crime_against = some "People")) l _
      YearlyRow.person_crimes (fun _ => rfl)
  · exact sum_metric_countP (fun r : Crime => r.year) (fun r : Crime => r.year.isSome)
      (fun r : Crime => decide (r.crime_against = some "Property")) l _
      YearlyRow.property_crimes (fun _ => rfl)
  · exact sum_metric_countP (fun r : Crime => r.year) (fun r : Crime => r.year.isSome)
      (fun r : Crime => decide (r.crime_against = some "Society")) l _
      YearlyRow.society_crimes (fun _ => rfl)
  · exact sum_metric_countP (fun r : Crime => r.year) (fun r : Crime => r.year.isSome)
      (fun r : Crime => r.is_domestic_violence) l _ YearlyRow.dv_total (fun _ => rfl)
  · exact sum_metric_countP (fun r : Crime => r.year) (fun r : Crime => r.year.isSome)
      (fun r : Crime => r.is_stolen_vehicle) l _ YearlyRow.stolen_vehicle_total (fun _ => rfl)
  · exact sum_metric_count (fun r : Crime => (r.city, r.year, r.crime_against))
      (fun r : Crime => r.city.isSome && r.year.isSome) l _
      (fun x : (Option String × Option Int × Option String) × ℕ => x.2) (fun _ => rfl)
  · exact sum_metric_count
      (fun r : Arrest => (r.offense_description, r.agency_short, r.year, r.month_start))
      (fun r : Arrest => r.year.isSome) l _
      (fun x : (Option String × Option String × Option Int × Option Int) × ℕ => x.2)
      (fun _ => rfl)
  · exact sum_metric_count (fun r : Cfs => (r.month_start, r.year, r.call_type_desc, r.priority))
      (fun r : Cfs => r.month_start.isSome) l _
      (fun x : (Option Int × Option Int × Option String × Option Int) × ℕ => x.2)
      (fun _ => rfl)
  · exact sum_metric_count
      (fun r : Cfs => (r.beat, r.year, r.call_type_desc, r.priority, r.disposition))
      (fun r : Cfs => r.beat.isSome && r.year.isSome) l _
      (fun x : (Option String × Option Int × Option String × Option Int × Option String) × ℕ => x.2)
      (fun _ => rfl)
  · exact sum_metric_count (fun r : Cfs => (r.dow, r.hour, r.priority))
      (fun r : Cfs => r.dow.isSome && r.hour.isSome) l _
      (fun x : (Option Int × Option Int × Option Int) × ℕ => x.2) (fun _ => rfl)

/-- C1: in both deduplicated canonical tables no two rows share the domain's
natural key (crime: incident id + offense description; calls: call id);
within each natural-key partition of the raw input the surviving row has the
maximum primary timestamp, among timestamp ties it is the earliest input row
(deterministic tie-break by input order), and every key present in the input
keeps exactly one survivor. -/
theorem canonical_dedup_natural_key :
    (∀ l : List RawCrime,
      ((transform_crime l).map fun c => (c.incidentuid, c.offense_description)).Nodup) ∧
    (∀ (l : List RawCrime) (p : ℕ × RawCrime),
      p ∈ latestSurvivors crimeKey (fun r => r.incident_date) l →
      ∀ q ∈ enumFrom 0 l, crimeKey q.2 = crimeKey p.2 →
        tsRank q.2.incident_date ≤ tsRank p.2.incident_date ∧
          (tsRank q.2.incident_date = tsRank p.2.incident_date → p.1 ≤ q.1)) ∧
    (∀ (l : List RawCrime) (r : RawCrime), r ∈ l →
      ∃ c ∈ transform_crime l, (c.incidentuid, c.offense_description) = crimeKey r) ∧
    (∀ (ct dp : Option (List (String × String))) (l : List RawCfs),
      ((transform_cfs ct dp l).map fun c => c.incident_num).Nodup) ∧
    (∀ (l : List RawCfs) (p : ℕ × RawCfs),
      p ∈ latestSurvivors (fun r : RawCfs => r.INCIDENT_NUM) (fun r => r.DATE_TIME) l →
      ∀ q ∈ enumFrom 0 l, q.2.INCIDENT_NUM = p.2.INCIDENT_NUM →
        tsRank q.2.DATE_TIME ≤ tsRank p.2.DATE_TIME ∧
          (tsRank q.2.DATE_TIME = tsRank p.2.DATE_TIME → p.1 ≤ q.1)) ∧
    (∀ (ct dp : Option (List (String × String))) (l : List RawCfs) (r : RawCfs),
      r ∈ l → ∃ c ∈ transform_cfs ct dp l, c.incident_num = r.INCIDENT_NUM) := by
  refine ⟨?_, ?_, ?_, ?_, ?_, ?_⟩
  · intro l
    have h := latestSurvivors_keys_pairwise crimeKey
      (fun r : RawCrime => r.incident_date) l
    have heq : ((transform_crime l).map fun c => (c.incidentuid, c.offense_description)) =
        (latestSurvivors crimeKey (fun r : RawCrime => r.incident_date) l).map
          fun p => crimeKey p.2 := by
      simp only [transform_crime, dedupLatest, List.map_map]
      rfl
    rw [heq]
    exact List.pairwise_map.mpr h
  · intro l p hp q hq hkey
    exact latestSurvivors_max crimeKey (fun r : RawCrime => r.incident_date) l p hp q hq hkey
  · intro l r hr
    obtain ⟨p, hp, hkey⟩ := latestSurvivors_exists crimeKey
      (fun r : RawCrime => r.incident_date) l r hr
    exact ⟨crimeOfRaw p.2, List.mem_map_of_mem _ (List.mem_map_of_mem _ hp), hkey⟩
  · intro ct dp l
    have h := latestSurvivors_keys_pairwise (fun r : RawCfs => r.INCIDENT_NUM)
      (fun r : RawCfs => r.DATE_TIME) l
    have heq : ((transform_cfs ct dp l).map fun c => c.incident_num) =
        (latestSurvivors (fun r : RawCfs => r.INCIDENT_NUM)
          (fun r : RawCfs => r.DATE_TIME) l).map fun p => p.2.INCIDENT_NUM := by
      simp only [transform_cfs, dedupLatest, List.map_map]
      rfl
    rw [heq]
    exact List.pairwise_map.mpr h
  · intro l p hp q hq hkey
    exact latestSurvivors_max (fun r : RawCfs => r.INCIDENT_NUM)
      (fun r : RawCfs => r.DATE_TIME) l p hp q hq hkey
  · intro ct dp l r hr
    obtain ⟨p, hp, hkey⟩ := latestSurvivors_exists (fun r : RawCfs => r.INCIDENT_NUM)
      (fun r : RawCfs => r.DATE_TIME) l r hr
    exact ⟨cfsOfRaw ct dp p.2, List.mem_map_of_mem _ (List.mem_map_of_mem _ hp), hkey⟩

/-- Witness for C1: of the spec's two `("X1","Theft")` revisions with
timestamps 100 and 200, the later row at input position 1 is the survivor;
applying the maximality part to the earlier row at position 0 yields its
rank bound. -/
theorem canonical_dedup_natural_key_witness :
    tsRank rcEarlier.incident_date ≤ tsRank rcLater.incident_date ∧
      (tsRank rcEarlier.incident_date = tsRank rcLater.incident_date → (1 : ℕ) ≤ 0) :=
  canonical_dedup_natural_key.2.1 [rcEarlier, rcLater] (1, rcLater) (by decide)
    (0, rcEarlier) (by decide) (by decide)

/-! ## Agency-classification lemmas (C5) -/

theorem prefAt_mem {p s : List Char} (h : prefAt p s = true) :
    ∀ c ∈ p, c ∈ s := by
  induction p generalizing s with
  | nil => intro c hc; simp at hc
  | cons a p ih =>
    cases s with
    | nil => simp [prefAt] at h
    | cons b s =>
      simp only [prefAt, Bool.and_eq_true, beq_iff_eq] at h
      intro c hc
      rcases List.mem_cons.mp hc with rfl | hc
      · exact h.1 ▸ List.mem_cons_self _ _
      · exact List.mem_cons_of_mem _ (ih h.2 c hc)

theorem hasSub_mem {p s : List Char} (h : hasSub p s = true) :
    ∀ c ∈ p, c ∈ s := by
  induction s with
  | nil => exact prefAt_mem h
  | cons b s ih =>
    simp only [hasSub, Bool.or_eq_true] at h
    rcases h with h | h
    · exact prefAt_mem h
    · intro c hc
      exact List.mem_cons_of_mem _ (ih h c hc)

theorem ilikeExact_all_space {s pat : String} (hs : ∀ c ∈ s.data, c = ' ')
    (hpat : ∃ c ∈ lowerChars pat, c ≠ ' ') : ilikeExact s pat = false := by
  by_contra hne
  have heqb : ilikeExact s pat = true := by
    revert hne; cases ilikeExact s pat <;> simp
  have heq : lowerChars s = lowerChars pat := by
    simpa [ilikeExact] using heqb
  obtain ⟨c, hc, hcne⟩ := hpat
  rw [← heq] at hc
  obtain ⟨d, hd, hdc⟩ := List.mem_map.mp hc
  rw [hs d hd] at hdc
  exact hcne (hdc ▸ rfl)

theorem ilikeContains_all_space {s pat : String} (hs : ∀ c ∈ s.data, c = ' ')
    (hpat : ∃ c ∈ lowerChars pat, c ≠ ' ') : ilikeContains s pat = false := by
  by_contra hne
  have hsub : hasSub (lowerChars pat) (lowerChars s) = true := by
    revert hne; simp [ilikeContains]
  obtain ⟨c, hc, hcne⟩ := hpat
  have hcs : c ∈ lowerChars s := hasSub_mem hsub c hc
  obtain ⟨d, hd, hdc⟩ := List.mem_map.mp hcs
  rw [hs d hd] at hdc
  exact hcne (hdc ▸ rfl)

theorem agencyShort_of_all_space {s : String} (hs : ∀ c ∈ s.data, c = ' ') :
    agencyShort s = "" := by
  have h1 : ilikeExact s "SAN DIEGO" = false :=
    ilikeExact_all_space hs ⟨'s', by decide, by decide⟩
  have h2a : ilikeContains s "SHERIFF" = false :=
    ilikeContains_all_space hs ⟨'s', by decide, by decide⟩
  have h2b : ilikeContains s "SD COUNTY" = false :=
    ilikeContains_all_space hs ⟨'s', by decide, by decide⟩
  have h3 : ilikeExact s "CHULA VISTA" = false :=
    ilikeExact_all_space hs ⟨'c', by decide, by decide⟩
  have h4 : ilikeExact s "OCEANSIDE" = false :=
    ilikeExact_all_space hs ⟨'o', by decide, by decide⟩
  have h5 : ilikeExact s "ESCONDIDO" = false :=
    ilikeExact_all_space hs ⟨'e', by decide, by decide⟩
  have h6 : ilikeExact s "CARLSBAD" = false :=
    ilikeExact_all_space hs ⟨'c', by decide, by decide⟩
  have h7 : ilikeExact s "EL CAJON" = false :=
    ilikeExact_all_space hs ⟨'e', by decide, by decide⟩
  have h8 : ilikeExact s "NATIONAL CITY" = false :=
    ilikeExact_all_space hs ⟨'n', by decide, by decide⟩
  have h9 : ilikeExact s "LA MESA" = false :=
    ilikeExact_all_space hs ⟨'l', by decide, by decide⟩
  have h10 : ilikeExact s "CORONADO" = false :=
    ilikeExact_all_space hs ⟨'c', by decide, by decide⟩
  have h11 : ilikeExact s "VISTA" = false :=
    ilikeExact_all_space hs ⟨'v', by decide, by decide⟩
  have hfil : s.data.filter (fun c => c ≠ ' ') = [] := by
    rw [List.filter_eq_nil_iff]
    intro c hc
    simp [hs c hc]
  have hrep : replaceSpace s = "" := by
    show (⟨s.data.filter (fun c => c ≠ ' ')⟩ : String) = ""
    rw [hfil]
  have hupp : upperStr (replaceSpace s) = "" := by
    rw [hrep]
    rfl
  simp [agencyShort, h1, h2a, h2b, h3, h4, h5, h6, h7, h8, h9, h10, h11, hupp]

set_option maxHeartbeats 2000000 in
theorem agencyShort_cases (s : String) :
    agencyShort s ∈
      ["SDPD", "SDSO", "CVPD", "OPD", "EPD", "CPD", "ECPD", "NCPD", "LMPD",
       "CoronPD", "VPD"] ∨
      agencyShort s = upperStr (replaceSpace s) := by
  unfold agencyShort
  split_ifs <;> first | exact Or.inr rfl | exact Or.inl (by decide)

/-- C5 counterexample: the all-whitespace agency string classifies to the
empty string, not a non-empty short code (`UPPER(REPLACE(' ', ' ', '')) = ''`). -/
theorem agency_classification_counterexample : agencyShort " " = "" := by
  decide

/-- C5 (amended): agency classification is total and first-match-wins, but
its default branch `UPPER(REPLACE(agency, ' ', ''))` yields a non-empty
short code exactly when the raw string contains a non-space character; the
empty and all-space strings map to the empty string. -/
theorem agency_classification_nonempty_iff (s : String) :
    agencyShort s ≠ "" ↔ ∃ c ∈ s.data, c ≠ ' ' := by
  constructor
  · intro hne
    by_contra hex
    push_neg at hex
    exact hne (agencyShort_of_all_space hex)
  · rintro ⟨c, hc, hcne⟩ heq
    rcases agencyShort_cases s with hmem | hdef
    · rw [heq] at hmem
      exact absurd hmem (by decide)
    · rw [hdef] at heq
      have hdata := congrArg String.data heq
      simp only [upperStr, replaceSpace] at hdata
      have h2 : s.data.filter (fun c => c ≠ ' ') = [] :=
        List.map_eq_nil_iff.mp hdata
      have h3 : c ∈ s.data.filter (fun c => c ≠ ' ') :=
        List.mem_filter.mpr ⟨hc, by simp [hcne]⟩
      rw [h2] at h3
      exact absurd h3 (List.not_mem_nil c)

/-- Witness for C5 (amended) at a concrete raw agency string. -/
theorem agency_classification_nonempty_iff_witness :
    agencyShort "San Diego" ≠ "" :=
  (agency_classification_nonempty_iff "San Diego").mpr ⟨'S', by decide, by decide⟩

/-! ## Fetcher and orchestration fixtures -/

/-- A transform-stage filesystem with the crime artifact missing but the
arrests artifact and one (empty) CFS csv present. -/
def fsNoCrime : RawFS where
  cibrs_group_a := none
  cibrs_group_b := some []
  cfs_csvs := [[]]
  call_type_ref := none
  dispo_ref := none

/-- A transform-stage filesystem with crime and arrests artifacts present
and no CFS csv files. -/
def fsNoCfs : RawFS where
  cibrs_group_a := some []
  cibrs_group_b := some []
  cfs_csvs := []
  call_type_ref := none
  dispo_ref := none

/-- The canonical tables of a run whose CFS track was skipped. -/
def canonicalNoCfs (rawCrime : List RawCrime) (rawArrests : List RawArrest) :
    Canonical where
  crime := some (transform_crime rawCrime)
  arrests := some (transform_arrests rawArrests)
  cfs := none

/-- A per-year HTTP status assignment: the 2025 file is not yet published
(403), every other year responds 200. -/
def stWit : ℤ → ℕ := fun y => if y = 2025 then 403 else 200

/-- The validator input exposing check 10's counter slip: the arrests table
exists with zero rows, nothing else exists. -/
def valBug : ValInput :=
  { crime := none, arrests := some [], cfs := none, aggs := [], currentYear := 2026 }

theorem writeLoop_eq_append (acc l : List (List ℕ)) :
    writeLoop acc l = acc ++ l := by
  induction l generalizing acc with
  | nil => simp [writeLoop]
  | cons c rest ih => simp [writeLoop, ih]

theorem cfsIngestLoop_all_ok (status : ℤ → ℕ) (ys : List ℤ)
    (h : ∀ y ∈ ys, status y < 400 ∨ status y = 403) :
    cfsIngestLoop (fun _ => false) false status ys =
      .ok (ys.filter fun y => decide (status y < 400)) := by
  induction ys with
  | nil => rfl
  | cons y ys ih =>
    have hy := h y (List.mem_cons_self y ys)
    have hrest : ∀ z ∈ ys, status z < 400 ∨ status z = 403 := fun z hz =>
      h z (List.mem_cons_of_mem y hz)
    rcases hy with hlt | h403
    · have hdl : csv_download false false (status y) = .ok (some ()) := by
        simp [csv_download, hlt]
      simp [cfsIngestLoop, hdl, ih hrest, List.filter_cons, hlt, Except.map]
    · have hnl : ¬ status y < 400 := by omega
      have hdl : csv_download false false (status y) = .ok none := by
        simp [csv_download, h403, hnl]
      simp [cfsIngestLoop, hdl, ih hrest, List.filter_cons, hnl]

/-- C7: an uncached per-year download answered 403 raises no error and
returns no artifact; any other failure status is re-raised; over a whole
run, the 403 years are exactly the ones omitted from the returned list. -/
theorem fetch_403_expected_absence :
    (∀ force : Bool, csv_download false force 403 = .ok none) ∧
    (∀ (force : Bool) (st : ℕ), 400 ≤ st → st ≠ 403 →
      csv_download false force st = .error st) ∧
    (∀ (status : ℤ → ℕ) (ys : List ℤ),
      (∀ y ∈ ys, status y < 400 ∨ status y = 403) →
      cfsIngestLoop (fun _ => false) false status ys =
        .ok (ys.filter fun y => decide (status y < 400)) ∧
      ∀ y ∈ ys, status y = 403 →
        y ∉ ys.filter fun y => decide (status y < 400)) := by
  refine ⟨fun force => rfl, ?_, ?_⟩
  · intro force st h400 hne
    simp [csv_download, Nat.not_lt.mpr h400, hne]
  · intro status ys h
    refine ⟨cfsIngestLoop_all_ok status ys h, ?_⟩
    intro y _ h403 hmem
    have hd := (List.mem_filter.mp hmem).2
    rw [h403] at hd
    simp at hd

/-- Witness for C7: with years 2024 (status 200) and 2025 (status 403), the
loop succeeds and the 2025 artifact is omitted. -/
theorem fetch_403_expected_absence_witness :
    cfsIngestLoop (fun _ => false) false stWit [2024, 2025] =
      .ok ([2024, 2025].filter fun y => decide (stWit y < 400)) ∧
      (2025 : ℤ) ∉ ([2024, 2025].filter fun y => decide (stWit y < 400)) := by
  have h := fetch_403_expected_absence.2.2 stWit [2024, 2025] (by decide)
  exact ⟨h.1, h.2 2025 (by decide) (by decide)⟩

/-- C3 counterexample: a `_csv_download` of two chunks interrupted after the
first leaves a file under the artifact's expected name whose content is not
the full payload, and the next run's cache check accepts it. -/
theorem raw_write_partial_counterexample :
    csvDiskAfter [[1], [2]] 1 = some [[1]] ∧
      ([[1]] : List (List ℕ)) ≠ [[1], [2]] ∧
      cacheHit (csvDiskAfter [[1], [2]] 1) false = true := by
  decide

/-- C3 (amended): raw-artifact writes are not atomic.  Both fetchers write
directly to the final path (no temporary file, no rename), so a write
interrupted at any point leaves a partial file under the artifact's expected
name, which a later run observes as a valid cached copy. -/
theorem raw_writes_not_atomic (chunks : List (List ℕ)) (data : List ℕ)
    (k j : ℕ) (hk : k < chunks.length) (hj : j < data.length) :
    (∃ c, csvDiskAfter chunks k = some c ∧ c ≠ chunks ∧
      cacheHit (csvDiskAfter chunks k) false = true) ∧
    (∃ d, sodaDiskAfter data j = some d ∧ d ≠ data ∧
      cacheHit (sodaDiskAfter data j) false = true) := by
  constructor
  · refine ⟨chunks.take k, by simp [csvDiskAfter, writeLoop_eq_append], ?_, rfl⟩
    intro h
    have hlen := congrArg List.length h
    rw [List.length_take] at hlen
    omega
  · refine ⟨data.take j, rfl, ?_, rfl⟩
    intro h
    have hlen := congrArg List.length h
    rw [List.length_take] at hlen
    omega

/-- Witness for C3 (amended) at a concrete two-chunk download and two-byte
payload, both interrupted halfway. -/
theorem raw_writes_not_atomic_witness :
    (∃ c, csvDiskAfter [[1], [2]] 1 = some c ∧ c ≠ [[1], [2]] ∧
      cacheHit (csvDiskAfter [[1], [2]] 1) false = true) ∧
    (∃ d, sodaDiskAfter [5, 6] 1 = some d ∧ d ≠ [5, 6] ∧
      cacheHit (sodaDiskAfter [5, 6] 1) false = true) :=
  raw_writes_not_atomic [[1], [2]] [5, 6] 1 1 (by decide) (by decide)

/-- C4 counterexample: with the crime artifact missing while the arrests
artifact and a CFS csv are present, the transform stage raises instead of
skipping the crime track — the sibling tracks produce nothing. -/
theorem transform_missing_artifact_aborts :
    transformRun fsNoCrime = .error .missing_crime_artifact := rfl

/-- C4 (amended): only the calls track skips-and-logs a missing input: with
crime and arrests artifacts present and no CFS csv files the run completes,
builds crime and arrests (and only their aggregations), and skips the calls
table; but a missing crime or arrests artifact raises out of `read_json` and
aborts the whole transform stage, sibling tracks included. -/
theorem transform_missing_artifact_amended (fs : RawFS) :
    (fs.cibrs_group_a = none → transformRun fs = .error .missing_crime_artifact) ∧
    (∀ rawCrime, fs.cibrs_group_a = some rawCrime → fs.cibrs_group_b = none →
      transformRun fs = .error .missing_arrests_artifact) ∧
    (∀ rawCrime rawArrests, fs.cibrs_group_a = some rawCrime →
      fs.cibrs_group_b = some rawArrests → fs.cfs_csvs = [] →
      transformRun fs = .ok (canonicalNoCfs rawCrime rawArrests) ∧
      aggFilesBuilt (canonicalNoCfs rawCrime rawArrests) =
        ["crime_overview_monthly", "crime_by_type", "crime_by_zip",
         "crime_by_agency", "victim_demographics", "domestic_violence",
         "temporal_patterns", "map_points", "yearly_summary", "crime_by_city",
         "arrests_by_type"]) := by
  refine ⟨fun h => by simp [transformRun, h], ?_, ?_⟩
  · intro rawCrime h1 h2
    simp [transformRun, h1, h2]
  · intro rawCrime rawArrests h1 h2 h3
    constructor
    · simp [transformRun, h1, h2, h3, canonicalNoCfs]
    · simp [aggFilesBuilt, canonicalNoCfs]

/-- Witness for C4 (amended): a concrete run with crime and arrests present
and the CFS glob empty. -/
theorem transform_missing_artifact_amended_witness :
    transformRun fsNoCfs = .ok (canonicalNoCfs [] []) ∧
      aggFilesBuilt (canonicalNoCfs [] []) =
        ["crime_overview_monthly", "crime_by_type", "crime_by_zip",
         "crime_by_agency", "victim_demographics", "domestic_violence",
         "temporal_patterns", "map_points", "yearly_summary", "crime_by_city",
         "arrests_by_type"] :=
  (transform_missing_artifact_amended fsNoCfs).2.2 [] [] rfl rfl rfl

/-- C9: evaluating `validate` at a state whose arrests table exists with
zero rows shows check 10 printing WARN without incrementing the issue
counter (`if count and count <= 40_000` is falsy at `count == 0`): the run
prints 17 WARN/FAIL lines but returns 16 issues. -/
theorem validate_warn_without_increment :
    (validate valBug).2 = 16 ∧ warnFailCount (validate valBug).1 = 17 := by
  decide

end SDPS
